import Mathlib

/-!
Verification of the status-transition and form-validation logic of the
coldfront research-computing resource allocation manager.

The Python source is embedded shallowly: Django model rows become Lean
structures (status-choice foreign keys become their name strings, nullable
date columns become `Option Int` day counts), view `post` handlers and form
`clean` methods become pure functions from an explicit context to a result
record that carries the updated rows together with the emitted messages,
signals and emails, and the kind of HTTP response produced.
-/

namespace Coldfront

/-- Kind of HTTP response a view handler produces: a redirect, a 400 Bad
Request, a re-rendered page (invalid form), or an uncaught Python
exception. -/
inductive Response
  | redirect
  | badRequest
  | rendered
  | crashed
deriving DecidableEq, Repr

/-- Row of the Allocation table, restricted to the columns the
`AllocationUpdateForm` touches (`coldfront/core/allocation/forms.py`).
Dates are day counts, `none` standing for SQL NULL. -/
structure Allocation where
  status : String
  start_date : Option Int
  end_date : Option Int
  description : String
  is_locked : Bool
  is_changeable : Bool
deriving DecidableEq, Repr

/-- Row of the AllocationUser table: the member's username and the
status-choice name. -/
structure AllocationUser where
  user : String
  status : String
deriving DecidableEq, Repr

/- ------------------------------------------------------------------ -/
/- ProjectArchiveProjectView.post                                      -/
/- (coldfront/core/project/views/project_archive_project_view.py)      -/
/- ------------------------------------------------------------------ -/

/-- Outcome of archiving a project: the project's new status name, the
allocation rows of the project after the loop, and the signals sent. -/
structure ArchiveResult where
  project_status : String
  allocations : List Allocation
  signals : List String
deriving DecidableEq, Repr

/-- Embedding of `ProjectArchiveProjectView.post`: the project's status is
set to "Archived", the `project_archive` signal is sent, and every
allocation of the project filtered by `status__name="Active"` gets status
"Expired" and end date `now`. -/
def project_archive_post (allocation_set : List Allocation) (now : Int) : ArchiveResult :=
  { project_status := "Archived"
    signals := ["project_archive"]
    allocations :=
      allocation_set.map (fun allocation =>
        if allocation.status = "Active" then
          { allocation with status := "Expired", end_date := some now }
        else
          allocation) }

/- ------------------------------------------------------------------ -/
/- AllocationUpdateForm.clean (coldfront/core/allocation/forms.py)      -/
/- ------------------------------------------------------------------ -/

/-- Embedding of `AllocationUpdateForm.clean`: raises
"End date cannot be less than start date" exactly when both cleaned dates
are present (a Python date object is never falsy, so presence means not
None) and the end date is strictly before the start date. -/
def allocation_update_form_clean (start_date end_date : Option Int) : Option String :=
  match start_date, end_date with
  | some s, some e =>
      if e < s then some "End date cannot be less than start date" else none
  | _, _ => none

/- ------------------------------------------------------------------ -/
/- AllocationDetailView.post (coldfront/core/allocation/views.py)       -/
/- ------------------------------------------------------------------ -/

/-- Cleaned data of an `AllocationUpdateForm` submission, one field per
column the form saves. -/
structure AllocationUpdateFormData where
  status : String
  start_date : Option Int
  end_date : Option Int
  description : String
  is_locked : Bool
  is_changeable : Bool
deriving DecidableEq, Repr

/-- Saving a valid `AllocationUpdateForm` writes every form field onto the
allocation row. -/
def apply_update_form (fd : AllocationUpdateFormData) : Allocation :=
  { status := fd.status
    start_date := fd.start_date
    end_date := fd.end_date
    description := fd.description
    is_locked := fd.is_locked
    is_changeable := fd.is_changeable }

/-- Request context of a POST to `AllocationDetailView`: the requesting
user's superuser flag, the submitted action and form data, the allocation
row with its user rows, the clock, the `ALLOCATION_DEFAULT_ALLOCATION_LENGTH`
setting, and the names interpolated into the auto-approve message. -/
structure DetailPostCtx where
  is_superuser : Bool
  action : String
  allocation : Allocation
  allocationuser_set : List AllocationUser
  form_data : AllocationUpdateFormData
  now : Int
  default_length : Int
  parent_resource : String
  pi_first_name : String
  pi_last_name : String
  pi_username : String
deriving DecidableEq, Repr

/-- Outcome of a POST to `AllocationDetailView`: the allocation row after
the request, the flash messages, the allocation-level signals, the per-user
signals as (signal name, username) pairs, the email subjects sent, and the
response kind. -/
structure DetailPostResult where
  allocation : Allocation
  messages : List String
  signals : List String
  user_signals : List (String × String)
  emails : List String
  response : Response
deriving DecidableEq, Repr

/-- Per-branch preprocessing computed before the form is validated: the
rewritten form data, the flash messages already added, and the signal/email
plumbing to run after a successful save. -/
structure DetailBranchPlan where
  data : AllocationUpdateFormData
  msgs : List String
  allocation_signal : Option String
  user_qs : List AllocationUser
  user_signal : Option String
  email_subject : Option String
deriving DecidableEq, Repr

/-- Status rewriting of the dirty form data copy: approve and auto-approve
force "Active", deny forces "Denied", update keeps the submitted status. -/
def detail_dirty_data (action : String) (fd : AllocationUpdateFormData) :
    AllocationUpdateFormData :=
  if action = "approve" ∨ action = "auto-approve" then { fd with status := "Active" }
  else if action = "deny" then { fd with status := "Denied" }
  else fd

/-- Branch preprocessing of `AllocationDetailView.post` once the status is
known to change: the "Active" branch fills missing start date with now,
overwrites the end date for approve/auto-approve (or when absent), and wires
the activate signals; "Denied"/"New"/"Revoked" null both dates, the first
two wiring the disable/remove signals; any other status passes through. -/
def detail_branch_plan (ctx : DetailPostCtx) (dirty : AllocationUpdateFormData) :
    DetailBranchPlan :=
  if dirty.status = "Active" then
    let d1 := if ctx.allocation.start_date = none then
        { dirty with start_date := some ctx.now } else dirty
    let d2 := if (ctx.action = "approve" ∨ ctx.action = "auto-approve") ∨ d1.end_date = none then
        { d1 with end_date := some (ctx.now + ctx.default_length) } else d1
    { data := d2
      msgs :=
        if ctx.action ≠ "auto-approve" then ["Allocation Activated!"]
        else ["Allocation to " ++ ctx.parent_resource ++ " has been ACTIVATED for " ++
          ctx.pi_first_name ++ " " ++ ctx.pi_last_name ++ " (" ++ ctx.pi_username ++ ")"]
      allocation_signal := some "allocation_activate"
      user_qs := ctx.allocationuser_set.filter
        (fun au => au.status ∉ ["Removed", "Error", "DeclinedEULA", "PendingEULA"])
      user_signal := some "allocation_activate_user"
      email_subject := some "Allocation Activated" }
  else if dirty.status ∈ ["Denied", "New", "Revoked"] then
    let d := { dirty with start_date := none, end_date := none }
    if dirty.status = "Denied" then
      { data := d
        msgs := ["Allocation Denied!"]
        allocation_signal := some "allocation_disable"
        user_qs := ctx.allocationuser_set.filter (fun au => au.status ∉ ["Removed", "Error"])
        user_signal := some "allocation_remove_user"
        email_subject := some "Allocation Denied" }
    else if dirty.status = "Revoked" then
      { data := d
        msgs := ["Allocation Revoked!"]
        allocation_signal := some "allocation_disable"
        user_qs := ctx.allocationuser_set.filter (fun au => au.status ∉ ["Removed", "Error"])
        user_signal := some "allocation_remove_user"
        email_subject := some "Allocation Revoked" }
    else
      { data := d
        msgs := ["Allocation updated!"]
        allocation_signal := none
        user_qs := []
        user_signal := none
        email_subject := none }
  else
    { data := dirty
      msgs := []
      allocation_signal := none
      user_qs := []
      user_signal := none
      email_subject := none }

/-- Embedding of `AllocationDetailView.post`: non-superusers are redirected
with a permission message and nothing changes; an unknown action is a 400;
when the (possibly rewritten) status does not change, UpdateView.post
revalidates the original submission and saves it; otherwise the branch plan
rewrites the data and, when the resulting form passes
`AllocationUpdateForm.clean`, the row is saved and the planned signals and
emails fire (per-user signals only when the queryset is non-empty). -/
def allocation_detail_post (ctx : DetailPostCtx) : DetailPostResult :=
  if ctx.is_superuser = false then
    { allocation := ctx.allocation
      messages := ["You do not have permission to update the allocation"]
      signals := [], user_signals := [], emails := [], response := .redirect }
  else if ctx.action ∉ ["update", "approve", "auto-approve", "deny"] then
    { allocation := ctx.allocation
      messages := [], signals := [], user_signals := [], emails := []
      response := .badRequest }
  else
    let dirty := detail_dirty_data ctx.action ctx.form_data
    if ctx.allocation.status = dirty.status then
      match allocation_update_form_clean ctx.form_data.start_date ctx.form_data.end_date with
      | none =>
          { allocation := apply_update_form ctx.form_data
            messages := [], signals := [], user_signals := [], emails := []
            response := .redirect }
      | some _ =>
          { allocation := ctx.allocation
            messages := [], signals := [], user_signals := [], emails := []
            response := .rendered }
    else
      let plan := detail_branch_plan ctx dirty
      match allocation_update_form_clean plan.data.start_date plan.data.end_date with
      | none =>
          { allocation := apply_update_form plan.data
            messages := plan.msgs
            signals := plan.allocation_signal.toList
            user_signals :=
              match plan.user_signal with
              | some s => if plan.user_qs ≠ [] then plan.user_qs.map (fun au => (s, au.user)) else []
              | none => []
            emails := plan.email_subject.toList
            response := .redirect }
      | some _ =>
          { allocation := ctx.allocation
            messages := plan.msgs
            signals := [], user_signals := [], emails := []
            response := .rendered }

/- ------------------------------------------------------------------ -/
/- AllocationChangeDetailView.post (coldfront/core/allocation/views.py) -/
/- ------------------------------------------------------------------ -/

/-- Row of the AllocationChangeRequest table, restricted to the columns the
`AllocationChangeRequestForm` touches. -/
structure AllocationChangeRequest where
  status : String
  end_date_extension : Int
  justification : String
  notes : String
deriving DecidableEq, Repr

/-- Row of the AllocationAttribute table, restricted to its value. -/
structure AllocationAttribute where
  value : String
deriving DecidableEq, Repr

/-- Cleaned data of one `AllocationAttributeChangeRequestForm` of the
formset: the targeted allocation attribute (by its index in the
allocation's attribute list) and the requested new value. -/
structure AttrChangeForm where
  attr_ix : Nat
  new_value : String
deriving DecidableEq, Repr

/-- Clean of `AllocationAttributeChangeRequestForm`: the form is valid when
it targets an existing attribute whose current value differs from the
requested one. -/
def attr_change_form_valid (attributes : List AllocationAttribute) (f : AttrChangeForm) : Bool :=
  match attributes.get? f.attr_ix with
  | some attr => attr.value ≠ f.new_value
  | none => false

/-- Whether the `end_date_extension` field of `AllocationChangeRequestForm`
is editable: `AllocationChangeDetailView.get_form_kwargs` disables it unless
the change request is still "Pending" and the requester is staff or a
superuser. -/
def ext_field_enabled (cr_status : String) (is_staff is_superuser : Bool) : Bool :=
  cr_status = "Pending" ∧ (is_staff ∨ is_superuser)

/-- Request context of a POST to `AllocationChangeDetailView`. The
extension choices are the configured `ALLOCATION_CHANGE_REQUEST_EXTENSION_DAYS`
(the form always offers 0, "No Extension", as well). -/
structure ChangePostCtx where
  is_superuser : Bool
  is_staff : Bool
  action : String
  change_request : AllocationChangeRequest
  allocation_end_date : Option Int
  attributes : List AllocationAttribute
  submitted_extension : Int
  submitted_notes : String
  formset : List AttrChangeForm
  ext_choices : List Int
deriving DecidableEq, Repr

/-- Outcome of a POST to `AllocationChangeDetailView`: the change request
and allocation rows after the request, the allocation attribute values, the
flash messages, signals and email subjects, and the response kind. -/
structure ChangePostResult where
  change_request : AllocationChangeRequest
  allocation_end_date : Option Int
  attributes : List AllocationAttribute
  messages : List String
  signals : List String
  emails : List String
  response : Response
deriving DecidableEq, Repr

/-- Saving a valid `AllocationChangeRequestForm` writes the submitted notes
and, when the field is editable, the submitted end-date extension; the
disabled allocation, justification and status fields keep their stored
values. -/
def apply_change_request_form (ctx : ChangePostCtx) : AllocationChangeRequest :=
  { ctx.change_request with
      notes := ctx.submitted_notes
      end_date_extension :=
        if ext_field_enabled ctx.change_request.status ctx.is_staff ctx.is_superuser then
          ctx.submitted_extension
        else
          ctx.change_request.end_date_extension }

/-- Embedding of `AllocationChangeDetailView.post`, following the source
order: permission gate, action gate, form validation, the deny branch, the
formset validation, the has-a-change gate, the update branches, and the
approve branch (which extends the allocation end date by a positive
extension — crashing on a NULL end date — and applies every attribute
change in formset order, firing `allocation_attribute_changed` each
time). -/
def allocation_change_detail_post (ctx : ChangePostCtx) : ChangePostResult :=
  let unchanged : ChangePostResult :=
    { change_request := ctx.change_request
      allocation_end_date := ctx.allocation_end_date
      attributes := ctx.attributes
      messages := [], signals := [], emails := [], response := .redirect }
  if ctx.is_superuser = false then
    { unchanged with
        messages := ["You do not have permission to update an allocation change request"] }
  else if ctx.action ∉ ["update", "approve", "deny"] then
    { unchanged with response := .badRequest }
  else
    let enabled := ext_field_enabled ctx.change_request.status ctx.is_staff ctx.is_superuser
    let form_ok : Bool := if enabled then ctx.submitted_extension ∈ (0 :: ctx.ext_choices) else true
    if form_ok = false then
      { unchanged with response := .rendered }
    else if ctx.action = "deny" then
      { unchanged with
          change_request := { apply_change_request_form ctx with status := "Denied" }
          messages := ["Allocation change request has been DENIED"]
          emails := ["Allocation Change Denied"] }
    else if ¬ ctx.formset.all (attr_change_form_valid ctx.attributes) then
      { unchanged with response := .rendered }
    else
      let has_changed : Bool :=
        enabled ∧ ctx.submitted_extension ≠ ctx.change_request.end_date_extension
      let change_requested : Bool := has_changed ∨ ctx.formset ≠ []
      if change_requested = false then
        { unchanged with
            messages := ["You must make a change to the allocation."]
            response := .rendered }
      else if ctx.action = "update" ∧ ctx.change_request.status ≠ "Pending" then
        { unchanged with
            change_request := { ctx.change_request with notes := ctx.submitted_notes }
            messages := ["Allocation change request updated!"] }
      else
        let saved := apply_change_request_form ctx
        if ctx.action = "update" then
          { unchanged with
              change_request := saved
              messages := ["Allocation change request updated!"] }
        else
          let approved := { saved with status := "Approved" }
          if saved.end_date_extension > 0 ∧ ctx.allocation_end_date = none then
            { unchanged with change_request := saved, response := .crashed }
          else
            { change_request := approved
              allocation_end_date :=
                if saved.end_date_extension > 0 then
                  ctx.allocation_end_date.map (· + saved.end_date_extension)
                else
                  ctx.allocation_end_date
              attributes :=
                ctx.formset.foldl
                  (fun acc f => acc.set f.attr_ix { value := f.new_value }) ctx.attributes
              messages := ["Allocation change request has been APPROVED"]
              signals :=
                ctx.formset.map (fun _ => "allocation_attribute_changed") ++
                  ["allocation_change_approved"]
              emails := ["Allocation Change Approved"]
              response := .redirect }

/- ------------------------------------------------------------------ -/
/- AllocationRenewView (coldfront/core/allocation/views.py)             -/
/- ------------------------------------------------------------------ -/

/-- Request context of `AllocationRenewView`: the
`ALLOCATION_ENABLE_ALLOCATION_RENEWAL` setting, the allocation row, the
`needs_review` flag of its project, the allocation's `expires_in` day count,
and the per-user review choices submitted in the formset. -/
structure RenewCtx where
  renewal_enabled : Bool
  allocation : Allocation
  project_needs_review : Bool
  expires_in : Int
  formset_choices : List String
deriving DecidableEq, Repr

/-- Outcome of `AllocationRenewView`: the allocation row afterwards, the
flash messages, email subjects, and the response kind. -/
structure RenewResult where
  allocation : Allocation
  messages : List String
  emails : List String
  response : Response
deriving DecidableEq, Repr

/-- Validity of the review formset: every `AllocationReviewUserForm` must
carry one of the three offered user-status choices. -/
def review_formset_valid (choices : List String) : Bool :=
  choices.all (fun c =>
    c ∈ ["keep_in_allocation_and_project", "keep_in_project_only", "remove_from_project"])

/-- Embedding of `AllocationRenewView.dispatch` followed by
`formset_valid`/`formset_invalid` on POST: each dispatch guard refuses with
an error message and redirects, leaving the allocation untouched; past the
guards a valid formset is saved and the allocation's status becomes
"Renewal Requested". -/
def allocation_renew_post (ctx : RenewCtx) : RenewResult :=
  if ctx.renewal_enabled = false then
    { allocation := ctx.allocation
      messages := ["Allocation renewal is disabled. Request a new allocation to this resource if you want to continue using it after the active until date."]
      emails := [], response := .redirect }
  else if ctx.allocation.status ∉ ["Active"] then
    { allocation := ctx.allocation
      messages := ["You cannot renew a allocation with status " ++ ctx.allocation.status ++ "."]
      emails := [], response := .redirect }
  else if ctx.project_needs_review then
    { allocation := ctx.allocation
      messages := ["You cannot renew your allocation because you have to review your project first."]
      emails := [], response := .redirect }
  else if ctx.expires_in > 60 then
    { allocation := ctx.allocation
      messages := ["It is too soon to review your allocation."]
      emails := [], response := .redirect }
  else if review_formset_valid ctx.formset_choices then
    { allocation := { ctx.allocation with status := "Renewal Requested" }
      messages := ["Allocation renewed successfully"]
      emails := ["Allocation Renewed"], response := .redirect }
  else
    { allocation := ctx.allocation
      messages := [], emails := [], response := .rendered }

/- ------------------------------------------------------------------ -/
/- AllocationForm.clean (coldfront/core/allocation/forms.py)            -/
/- ------------------------------------------------------------------ -/

/-- Allocation row of a project as seen by `AllocationForm.clean`: which
resource it is for and its status-choice name. -/
structure ProjectAllocationRow where
  resource : String
  status : String
deriving DecidableEq, Repr

/-- Number of allocations the project already has to the resource in one of
the six statuses counted by `AllocationForm.clean`. -/
def counted_allocations (allocation_set : List ProjectAllocationRow) (resource : String) : Nat :=
  (allocation_set.filter (fun a =>
    a.resource = resource ∧
      a.status ∈ ["Active", "New", "Renewal Requested", "Paid", "Payment Pending", "Payment Requested"])).length

/-- Request context of `AllocationForm.clean`: the
`ALLOCATION_ACCOUNT_ENABLED` / `INVOICE_ENABLED` settings and their side
conditions, the submitted account name (empty string standing for a missing,
falsy value), the resource's typed `allocation_limit` attribute (`none` when
unset), and the project's existing allocation rows. -/
structure AllocationFormCtx where
  account_enabled : Bool
  resource_in_account_mapping : Bool
  account_attr_type_exists : Bool
  allocation_account : String
  allocation_limit : Option Int
  allocation_set : List ProjectAllocationRow
  resource : String
  invoice_enabled : Bool
  requires_payment : Bool
  invoice_default_status : String
deriving DecidableEq, Repr

/-- Embedding of `AllocationForm.clean`: raise the account-name error when
the account machinery applies and no account was given; otherwise, when the
resource's `allocation_limit` attribute is truthy (set and nonzero), raise
the limit error as soon as the project's counted allocations reach it;
otherwise succeed, returning the status name the new allocation gets. -/
def allocation_form_clean (ctx : AllocationFormCtx) : Except String String :=
  if ctx.account_enabled ∧ ctx.resource_in_account_mapping ∧
      ctx.account_attr_type_exists ∧ ctx.allocation_account = "" then
    .error "You need to create an account name. Create it by clicking the link under the \x22Allocation account\x22 field."
  else
    let limit_truthy : Bool :=
      match ctx.allocation_limit with
      | some l => l ≠ 0
      | none => false
    if limit_truthy ∧
        ((counted_allocations ctx.allocation_set ctx.resource : Int) ≥
          (ctx.allocation_limit.getD 0)) then
      .error "Your project is at the allocation limit allowed for this resource."
    else if ctx.invoice_enabled ∧ ctx.requires_payment then
      .ok ctx.invoice_default_status
    else
      .ok "New"

/- ------------------------------------------------------------------ -/
/- remove_user_from_project / remove_user_from_allocation               -/
/- (coldfront/core/project/utils/user_management_utils.py)              -/
/- ------------------------------------------------------------------ -/

/-- Row of the ProjectUser table: username and status-choice name. -/
structure ProjectUser where
  user : String
  status : String
deriving DecidableEq, Repr

/-- Allocation of a project as seen by the user-management utilities: its
status and its AllocationUser rows. -/
structure ProjectAllocation where
  status : String
  allocationuser_set : List AllocationUser
deriving DecidableEq, Repr

/-- Project state touched by `remove_user_from_project`: the PI's username,
the ProjectUser rows and the project's allocations. -/
structure Project where
  pi : String
  projectuser_set : List ProjectUser
  allocation_set : List ProjectAllocation
deriving DecidableEq, Repr

/-- Embedding of `remove_user_from_allocation`: every AllocationUser row of
this allocation for the user with status "Active" is set to "Removed", one
`allocation_remove_user` signal per such row. -/
def remove_user_from_allocation (allocation : ProjectAllocation) (user_obj : String) :
    ProjectAllocation × List String :=
  ({ allocation with
      allocationuser_set := allocation.allocationuser_set.map (fun au =>
        if au.user = user_obj ∧ au.status = "Active" then { au with status := "Removed" }
        else au) },
    (allocation.allocationuser_set.filter
      (fun au => au.user = user_obj ∧ au.status = "Active")).map
        (fun _ => "allocation_remove_user"))

/-- Embedding of `remove_user_from_project`: refuse outright when the user
is the project's PI; otherwise, when an Active ProjectUser row exists, mark
it "Removed", send `project_remove_user`, and remove the user from every
allocation in status "Active", "New" or "Renewal Requested". Returns the
Python return value, the updated project and the signals sent. -/
def remove_user_from_project (project_obj : Project) (user_obj : String) :
    Bool × Project × List String :=
  if project_obj.pi = user_obj then
    (false, project_obj, [])
  else if project_obj.projectuser_set.any
      (fun pu => pu.user = user_obj ∧ pu.status = "Active") then
    let projectuser_updated := project_obj.projectuser_set.map (fun pu =>
      if pu.user = user_obj then { pu with status := "Removed" } else pu)
    let step := project_obj.allocation_set.map (fun allocation =>
      if allocation.status ∈ ["Active", "New", "Renewal Requested"] then
        remove_user_from_allocation allocation user_obj
      else
        (allocation, []))
    (true,
      { project_obj with
          projectuser_set := projectuser_updated
          allocation_set := step.map (·.1) },
      "project_remove_user" :: (step.map (·.2)).flatten)
  else
    (false, project_obj, [])

/- ------------------------------------------------------------------ -/
/- BaseAllocationUserFormSet.clean (coldfront/core/allocation/forms.py) -/
/- ------------------------------------------------------------------ -/

/-- The two actions a `BaseAllocationUserFormSet` is constructed for. -/
inductive FormsetAction
  | add
  | remove
deriving DecidableEq, Repr

/-- One form of a `BaseAllocationUserFormSet` after field cleaning: whether
the form has field errors, whether its checkbox is selected, the cleaned
user and status, whether that user's profile is a PI, and the EULA state and
project PI of the cleaned allocation. -/
structure UserFormRow where
  has_errors : Bool
  selected : Bool
  user : String
  status : String
  user_is_pi : Bool
  allocation_has_eula : Bool
  allocation_project_pi : String
deriving DecidableEq, Repr

/-- Loop of `BaseAllocationUserFormSet.clean` over the forms: unselected
forms are skipped; for ADD, an affected user is switched to "PendingEULA";
for REMOVE, the first selected form whose user is the allocation's project
PI aborts the loop with a ValidationError. -/
def formset_clean_rows (eula_enabled : Bool) (action : FormsetAction) :
    List UserFormRow → Option String × List UserFormRow
  | [] => (none, [])
  | r :: rest =>
      if r.selected = false then
        let t := formset_clean_rows eula_enabled action rest
        (t.1, r :: t.2)
      else
        match action with
        | .add =>
            let r' :=
              if eula_enabled ∧ r.user_is_pi = false ∧ r.allocation_has_eula then
                { r with status := "PendingEULA" }
              else r
            let t := formset_clean_rows eula_enabled action rest
            (t.1, r' :: t.2)
        | .remove =>
            if r.allocation_project_pi = r.user then
              (some "Cannot remove the project PI from an allocation.", r :: rest)
            else
              let t := formset_clean_rows eula_enabled action rest
              (t.1, r :: t.2)

/-- Embedding of `BaseAllocationUserFormSet.clean`: when any form already
has field errors the hook returns immediately; otherwise the per-form loop
runs. The first component is the ValidationError raised, if any. -/
def base_allocation_user_formset_clean (eula_enabled : Bool) (action : FormsetAction)
    (forms : List UserFormRow) : Option String × List UserFormRow :=
  if forms.any (·.has_errors) then
    (none, forms)
  else
    formset_clean_rows eula_enabled action forms

/- ------------------------------------------------------------------ -/
/- handle_pagination (coldfront/core/project/utils/view_helper_utils.py)-/
/- ------------------------------------------------------------------ -/

/-- Argument of `Paginator.page` as received from the query string: either
not parseable as an integer (raising PageNotAnInteger) or an integer. -/
inductive PageArg
  | notAnInt
  | int (n : Int)
deriving DecidableEq, Repr

/-- Exceptions Django's `Paginator.page` can raise: the two pagination
exceptions `handle_pagination` catches and the ZeroDivisionError of
`num_pages` at page size 0, which nothing catches. -/
inductive PaginatorError
  | pageNotAnInteger
  | emptyPage
  | zeroDivision
deriving DecidableEq, Repr

/-- Django `Paginator.num_pages` with the default allow_empty_first_page
and no orphans: ceil(max(1, count) / per_page), raising ZeroDivisionError
when `per_page` is 0. -/
def paginator_num_pages (count per_page : Nat) : Except PaginatorError Nat :=
  if per_page = 0 then .error .zeroDivision
  else .ok ((max 1 count + per_page - 1) / per_page)

/-- Django `Paginator.validate_number`: a non-integer raises
PageNotAnInteger, a number below 1 raises EmptyPage, and a number above
`num_pages` raises EmptyPage unless it is page 1 of an empty paginator;
computing `num_pages` itself can raise ZeroDivisionError. -/
def paginator_validate_number (count per_page : Nat) (page : PageArg) :
    Except PaginatorError Int :=
  match page with
  | .notAnInt => .error .pageNotAnInteger
  | .int n =>
      if n < 1 then .error .emptyPage
      else
        match paginator_num_pages count per_page with
        | .error e => .error e
        | .ok np =>
            if n > (np : Int) then
              if n = 1 then .ok n else .error .emptyPage
            else .ok n

/-- Django `Paginator.page`: validate the page number, then slice the
object list. -/
def paginator_page (item_list : List α) (per_page : Nat) (page : PageArg) :
    Except PaginatorError (List α) :=
  match paginator_validate_number item_list.length per_page page with
  | .error e => .error e
  | .ok n => .ok ((item_list.drop ((n - 1).toNat * per_page)).take per_page)

/-- Result of `handle_pagination`: the outcome of the call (the value Python
returns, or the exception that escapes it) and the list binding the caller
still holds after the call. -/
structure PaginationResult (α : Type) where
  outcome : Except PaginatorError (Option (List α))
  caller_list : List α

/-- Embedding of `handle_pagination`: `paginator.page(page)` is tried, a
PageNotAnInteger falls back to page 1 and an EmptyPage falls back to the
last page (both fallbacks outside the try, so their exceptions escape);
the resulting page object is bound to a local variable only, the body ends
without a return statement (Python returns None), and the caller's list is
untouched. -/
def handle_pagination (page : PageArg) (item_list : List α) (items_per_page : Nat) :
    PaginationResult α :=
  match paginator_page item_list items_per_page page with
  | .ok p =>
      let _ := p
      { outcome := .ok none, caller_list := item_list }
  | .error .pageNotAnInteger =>
      match paginator_page item_list items_per_page (.int 1) with
      | .ok p =>
          let _ := p
          { outcome := .ok none, caller_list := item_list }
      | .error e => { outcome := .error e, caller_list := item_list }
  | .error .emptyPage =>
      match paginator_num_pages item_list.length items_per_page with
      | .error e => { outcome := .error e, caller_list := item_list }
      | .ok np =>
          match paginator_page item_list items_per_page (.int (np : Int)) with
          | .ok p =>
              let _ := p
              { outcome := .ok none, caller_list := item_list }
          | .error e => { outcome := .error e, caller_list := item_list }
  | .error e => { outcome := .error e, caller_list := item_list }

/- ------------------------------------------------------------------ -/
/- determine_automated_institution_choice                              -/
/- (coldfront/core/project/utils/institution_utils.py)                 -/
/- ------------------------------------------------------------------ -/

/-- PI of a project, restricted to the email column used by the institution
matcher. -/
structure PiUser where
  email : String
deriving DecidableEq, Repr

/-- Project row restricted to the fields the institution matcher reads and
writes. -/
structure InstProject where
  pi : PiUser
  institution : String
deriving DecidableEq, Repr

/-- Result of running `determine_automated_institution_choice`: the returned
string together with the (possibly updated) in-memory project, or an
uncaught Python TypeError. -/
inductive InstResult
  | ok (returned : String) (project : InstProject)
  | typeError
deriving DecidableEq, Repr

/-- Python substring containment `needle in hay` on strings. -/
def str_contains (hay needle : String) : Bool :=
  decide (needle.data <:+: hay.data)

/-- Python `str.split` on a one-character separator: splitting n occurrences
yields n+1 parts. -/
def split_at_char (c : Char) : List Char → List (List Char)
  | [] => [[]]
  | x :: xs =>
      let r := split_at_char c xs
      if x = c then [] :: r
      else
        match r with
        | [] => [[x]]
        | y :: ys => (x :: y) :: ys

/-- Two-element unpacking of `email.split("@")`: succeeds exactly when the
email contains a single "@", yielding the part after it; any other shape
raises the ValueError that the caller catches. -/
def email_domain (email : String) : Option String :=
  match split_at_char (Char.ofNat 0x40) email.data with
  | [_, domain] => some (String.mk domain)
  | _ => none

/-- Indirect-match loop of `determine_automated_institution_choice`: iterate
the institution map in order and take the first key occurring as a substring
of the PI's email domain. When the domain is `None` (the email did not split
into exactly two parts) the Python expression `key in None` raises a
TypeError on the first iteration. -/
def institution_indirect_match (pi_email_domain : Option String) (project : InstProject) :
    List (String × String) → InstResult
  | [] => .ok project.institution project
  | (institution_email_domain, indirect_institution_match) :: rest =>
      match pi_email_domain with
      | none => .typeError
      | some d =>
          if str_contains d institution_email_domain then
            .ok indirect_institution_match { project with institution := indirect_institution_match }
          else
            institution_indirect_match pi_email_domain project rest

/-- Embedding of `determine_automated_institution_choice`: split the PI's
email on "@" (two-element unpacking succeeds exactly when the email contains
a single "@", otherwise the ValueError is caught and the domain is None),
look the domain up in the map, and if the direct match is falsy fall back to
the substring loop. -/
def determine_automated_institution_choice (project : InstProject)
    (institution_map : List (String × String)) : InstResult :=
  let pi_email_domain : Option String := email_domain project.pi.email
  let direct_institution_match : Option String :=
    match pi_email_domain with
    | some d => (institution_map.find? (fun kv => kv.1 = d)).map (·.2)
    | none => none
  match direct_institution_match with
  | some v =>
      if v ≠ "" then .ok v { project with institution := v }
      else institution_indirect_match pi_email_domain project institution_map
  | none => institution_indirect_match pi_email_domain project institution_map

/- ------------------------------------------------------------------ -/
/- Concrete fixtures used to instantiate the theorems below             -/
/- ------------------------------------------------------------------ -/

/-- Two-allocation fixture: one Active, one Denied. -/
def archive_fixture : List Allocation :=
  [{ status := "Active", start_date := some 1, end_date := some 400, description := "",
     is_locked := false, is_changeable := true },
   { status := "Denied", start_date := none, end_date := none, description := "d",
     is_locked := true, is_changeable := false }]

/-- Fixture for a POST to the allocation detail view by a non-superuser. -/
def detail_non_superuser_fixture : DetailPostCtx :=
  { is_superuser := false
    action := "approve"
    allocation := { status := "New", start_date := none, end_date := none, description := "",
                    is_locked := false, is_changeable := true }
    allocationuser_set := [{ user := "alice", status := "Active" }]
    form_data := { status := "Active", start_date := none, end_date := none, description := "",
                   is_locked := false, is_changeable := true }
    now := 0, default_length := 365
    parent_resource := "hpc", pi_first_name := "Ada", pi_last_name := "L", pi_username := "ada" }

/-- Fixture for a superuser approval where the allocation already has a
start date and the form submits a different one. -/
def detail_approve_fixture : DetailPostCtx :=
  { is_superuser := true
    action := "approve"
    allocation := { status := "New", start_date := some 10, end_date := some 20, description := "",
                    is_locked := false, is_changeable := true }
    allocationuser_set := [{ user := "alice", status := "Active" },
                           { user := "bob", status := "Removed" }]
    form_data := { status := "New", start_date := some 20, end_date := some 30, description := "",
                   is_locked := false, is_changeable := true }
    now := 100, default_length := 365
    parent_resource := "hpc", pi_first_name := "Ada", pi_last_name := "L", pi_username := "ada" }

/-- Fixture for a superuser approving a pending change request that only
carries its stored five-day extension and no attribute changes. -/
def change_approve_no_change_fixture : ChangePostCtx :=
  { is_superuser := true, is_staff := false, action := "approve"
    change_request := { status := "Pending", end_date_extension := 5,
                        justification := "more time", notes := "" }
    allocation_end_date := some 100
    attributes := []
    submitted_extension := 5, submitted_notes := ""
    formset := [], ext_choices := [5, 30] }

/-- Fixture for a superuser approving a pending change request that extends
the end date and changes an attribute. -/
def change_approve_fixture : ChangePostCtx :=
  { is_superuser := true, is_staff := false, action := "approve"
    change_request := { status := "Pending", end_date_extension := 30,
                        justification := "more time", notes := "" }
    allocation_end_date := some 100
    attributes := [{ value := "1000" }, { value := "2" }]
    submitted_extension := 30, submitted_notes := ""
    formset := [{ attr_ix := 0, new_value := "2000" }], ext_choices := [5, 30] }

/-- Fixture for a superuser approving a pending change request with a
positive extension on an allocation whose end date is NULL. -/
def change_approve_null_end_fixture : ChangePostCtx :=
  { is_superuser := true, is_staff := false, action := "approve"
    change_request := { status := "Pending", end_date_extension := 0,
                        justification := "more time", notes := "" }
    allocation_end_date := none
    attributes := []
    submitted_extension := 30, submitted_notes := ""
    formset := [], ext_choices := [5, 30] }

/-- Renewal fixture refused by the expiry guard. -/
def renew_refused_fixture : RenewCtx :=
  { renewal_enabled := true
    allocation := { status := "Active", start_date := some 0, end_date := some 400,
                    description := "", is_locked := false, is_changeable := true }
    project_needs_review := false
    expires_in := 200
    formset_choices := [] }

/-- Renewal fixture that passes every guard with a valid review formset. -/
def renew_ok_fixture : RenewCtx :=
  { renewal_enabled := true
    allocation := { status := "Active", start_date := some 0, end_date := some 30,
                    description := "", is_locked := false, is_changeable := true }
    project_needs_review := false
    expires_in := 30
    formset_choices := ["keep_in_allocation_and_project", "remove_from_project"] }

/-- New-allocation submission against a resource whose allocation_limit
attribute is set to zero, from a project with no allocations at all. -/
def zero_limit_fixture : AllocationFormCtx :=
  { account_enabled := false, resource_in_account_mapping := false
    account_attr_type_exists := false, allocation_account := ""
    allocation_limit := some 0, allocation_set := [], resource := "hpc"
    invoice_enabled := false, requires_payment := false
    invoice_default_status := "Pending Payment" }

/-- Submission against a resource with limit 1 from a project that already
holds one Active allocation to it. -/
def at_limit_fixture : AllocationFormCtx :=
  { account_enabled := false, resource_in_account_mapping := false
    account_attr_type_exists := false, allocation_account := ""
    allocation_limit := some 1
    allocation_set := [{ resource := "hpc", status := "Active" }]
    resource := "hpc"
    invoice_enabled := false, requires_payment := false
    invoice_default_status := "Pending Payment" }

/-- Project fixture whose PI "ada" also appears as an active project user
and allocation user. -/
def pi_project_fixture : Project :=
  { pi := "ada"
    projectuser_set := [{ user := "ada", status := "Active" },
                        { user := "bob", status := "Active" }]
    allocation_set := [{ status := "Active",
                         allocationuser_set := [{ user := "ada", status := "Active" }] }] }

/-- Removal-formset row selecting the project PI. -/
def pi_row_fixture : UserFormRow :=
  { has_errors := false, selected := true, user := "ada", status := "Active"
    user_is_pi := true, allocation_has_eula := false, allocation_project_pi := "ada" }

/-- Project whose PI's email address has no "@", next to a one-entry
institution map. -/
def no_at_project_fixture : InstProject :=
  { pi := { email := "nodomain" }, institution := "Unknown" }

/- ------------------------------------------------------------------ -/
/- Theorems                                                            -/
/- ------------------------------------------------------------------ -/

/-- C7: `AllocationUpdateForm` validation fails with the error
"End date cannot be less than start date" exactly when both a start date
and an end date are supplied and the end date is strictly earlier than the
start date; in every other case this check passes. -/
theorem c7_allocation_update_clean_iff (start_date end_date : Option Int) :
    allocation_update_form_clean start_date end_date =
        some "End date cannot be less than start date" ↔
      ∃ s e, start_date = some s ∧ end_date = some e ∧ e < s := by
  cases start_date <;> cases end_date <;> simp [allocation_update_form_clean]

/-- C9 counterexample: with page size 0 the paginator's `num_pages`
division raises ZeroDivisionError, neither except clause catches it, and
`handle_pagination` does not return None. -/
theorem c9_zero_page_size_counterexample :
    (handle_pagination (PageArg.int 1) [0] 0).outcome =
        .error PaginatorError.zeroDivision ∧
      (handle_pagination (PageArg.int 1) [0] 0).outcome ≠ .ok none := by
  have h : (handle_pagination (PageArg.int 1) [0] 0).outcome =
      .error PaginatorError.zeroDivision := rfl
  exact ⟨h, by rw [h]; simp⟩

/-- C9 (amended): for every page argument, item list and positive page
size, `handle_pagination` returns None and the caller's item list is
unchanged: the computed page object is bound to a local variable only
(at page size 0 the Paginator's division raises an uncaught
ZeroDivisionError instead, and the caller's list is still unchanged). -/
theorem c9_handle_pagination_no_effect {α : Type} (page : PageArg) (item_list : List α)
    (items_per_page : Nat) (hpos : 0 < items_per_page) :
    (handle_pagination page item_list items_per_page).outcome = .ok none ∧
      (handle_pagination page item_list items_per_page).caller_list = item_list := by
  have hnz : ¬ items_per_page = 0 := by omega
  obtain ⟨np, hnp, hge⟩ : ∃ np, paginator_num_pages item_list.length items_per_page =
      .ok np ∧ 1 ≤ np := by
    refine ⟨(max 1 item_list.length + items_per_page - 1) / items_per_page, ?_, ?_⟩
    · simp [paginator_num_pages, hnz]
    · rw [Nat.le_div_iff_mul_le hpos]
      omega
  have hv1 : paginator_validate_number item_list.length items_per_page (.int 1) =
      .ok 1 := by
    simp only [paginator_validate_number, hnp]
    rw [if_neg (by omega), if_neg (by omega)]
  have hvlast : paginator_validate_number item_list.length items_per_page (.int (np : Int)) =
      .ok (np : Int) := by
    simp only [paginator_validate_number, hnp]
    rw [if_neg (by omega), if_neg (by omega)]
  obtain ⟨pl, hpl⟩ : ∃ p, paginator_page item_list items_per_page (.int (np : Int)) =
      .ok p := by
    simp [paginator_page, hvlast]
  cases page with
  | notAnInt =>
      obtain ⟨p1, hp1⟩ : ∃ p, paginator_page item_list items_per_page (.int 1) = .ok p := by
        simp [paginator_page, hv1]
      have hpn : paginator_page item_list items_per_page .notAnInt =
          .error .pageNotAnInteger := rfl
      constructor <;> simp [handle_pagination, hpn, hp1]
  | int n =>
      by_cases h1 : n < 1
      · have hv : paginator_page item_list items_per_page (.int n) =
            .error .emptyPage := by
          simp only [paginator_page, paginator_validate_number, hnp]
          rw [if_pos h1]
        constructor <;> simp [handle_pagination, hv, hnp, hpl]
      · by_cases h2 : (n : Int) > (np : Int)
        · have hv : paginator_page item_list items_per_page (.int n) =
              .error .emptyPage := by
            simp only [paginator_page, paginator_validate_number, hnp]
            rw [if_neg h1, if_pos h2, if_neg (by omega)]
          constructor <;> simp [handle_pagination, hv, hnp, hpl]
        · have hv : paginator_validate_number item_list.length items_per_page (.int n) =
              .ok n := by
            simp only [paginator_validate_number, hnp]
            rw [if_neg h1, if_neg h2]
          obtain ⟨pn, hpn⟩ : ∃ p, paginator_page item_list items_per_page (.int n) =
              .ok p := by
            simp [paginator_page, hv]
          constructor <;> simp [handle_pagination, hpn]

/-- Witness for C9 at a concrete page, list and positive page size. -/
theorem c9_handle_pagination_no_effect_witness :
    (handle_pagination (PageArg.int 3) [10, 20, 30] 2).outcome = .ok none ∧
      (handle_pagination (PageArg.int 3) [10, 20, 30] 2).caller_list = [10, 20, 30] :=
  c9_handle_pagination_no_effect (PageArg.int 3) [10, 20, 30] 2 (by decide)

/-- C2: a POST to `AllocationDetailView` by an authenticated non-superuser
leaves the allocation row entirely unchanged and redirects back to the
allocation with the message "You do not have permission to update the
allocation"; no signal or email is emitted. -/
theorem c2_detail_post_non_superuser (ctx : DetailPostCtx)
    (h : ctx.is_superuser = false) :
    allocation_detail_post ctx =
      { allocation := ctx.allocation
        messages := ["You do not have permission to update the allocation"]
        signals := [], user_signals := [], emails := [], response := .redirect } := by
  simp [allocation_detail_post, h]

/-- Witness for C2 at a concrete non-superuser approval attempt. -/
theorem c2_detail_post_non_superuser_witness :
    detail_non_superuser_fixture.is_superuser = false ∧
      allocation_detail_post detail_non_superuser_fixture =
        { allocation := detail_non_superuser_fixture.allocation
          messages := ["You do not have permission to update the allocation"]
          signals := [], user_signals := [], emails := [], response := .redirect } :=
  ⟨rfl, c2_detail_post_non_superuser detail_non_superuser_fixture rfl⟩

/-- C1: archiving a project sets its status to "Archived", sends the
`project_archive` signal, and turns every Active allocation of the project
into an Expired one ending now, while allocations in any other status are
left unchanged. -/
theorem c1_project_archive_spec (allocation_set : List Allocation) (now : Int) :
    (project_archive_post allocation_set now).project_status = "Archived" ∧
    "project_archive" ∈ (project_archive_post allocation_set now).signals ∧
    (project_archive_post allocation_set now).allocations.length = allocation_set.length ∧
    ∀ i (h : i < allocation_set.length)
        (h2 : i < (project_archive_post allocation_set now).allocations.length),
      ((allocation_set.get ⟨i, h⟩).status = "Active" →
        (project_archive_post allocation_set now).allocations.get ⟨i, h2⟩ =
          { allocation_set.get ⟨i, h⟩ with status := "Expired", end_date := some now }) ∧
      ((allocation_set.get ⟨i, h⟩).status ≠ "Active" →
        (project_archive_post allocation_set now).allocations.get ⟨i, h2⟩ =
          allocation_set.get ⟨i, h⟩) := by
  refine ⟨rfl, by simp [project_archive_post], by simp [project_archive_post], ?_⟩
  intro i h h2
  simp only [List.get_eq_getElem]
  constructor
  · intro hA
    simp [project_archive_post, List.getElem_map, hA]
  · intro hA
    simp [project_archive_post, List.getElem_map, hA]

/-- Witness for C1 on a two-allocation project: the Active allocation is
expired with the archive end date and the Denied one is untouched. -/
theorem c1_project_archive_spec_witness :
    ((archive_fixture.get ⟨0, by decide⟩).status = "Active" ∧
      (project_archive_post archive_fixture 7).allocations.get ⟨0, by decide⟩ =
        { archive_fixture.get ⟨0, by decide⟩ with status := "Expired", end_date := some 7 }) ∧
    ((archive_fixture.get ⟨1, by decide⟩).status ≠ "Active" ∧
      (project_archive_post archive_fixture 7).allocations.get ⟨1, by decide⟩ =
        archive_fixture.get ⟨1, by decide⟩) :=
  ⟨⟨by decide,
    ((c1_project_archive_spec archive_fixture 7).2.2.2 0 (by decide) (by decide)).1 (by decide)⟩,
   ⟨by decide,
    ((c1_project_archive_spec archive_fixture 7).2.2.2 1 (by decide) (by decide)).2 (by decide)⟩⟩

/-- C10: evaluating `determine_automated_institution_choice` on a project
whose PI email contains no "@", against a non-empty institution map, ends in
an uncaught TypeError: the caught ValueError leaves the domain as None and
the substring loop then evaluates `key in None`. -/
theorem c10_institution_choice_crashes_without_at :
    determine_automated_institution_choice no_at_project_fixture
        [("example.com", "Example University")] = .typeError := by
  decide

/-- C5: a renewal request is refused with an error message and the
allocation is left unchanged unless renewal is enabled, the allocation is
Active, its project does not need review and it expires within 60 days;
when all guards pass and the review formset validates, the allocation's
status becomes "Renewal Requested". -/
theorem c5_allocation_renew_spec (ctx : RenewCtx) :
    (¬ (ctx.renewal_enabled = true ∧ ctx.allocation.status = "Active" ∧
        ctx.project_needs_review = false ∧ ctx.expires_in ≤ 60) →
      (allocation_renew_post ctx).allocation = ctx.allocation ∧
        (allocation_renew_post ctx).messages ≠ []) ∧
    ((ctx.renewal_enabled = true ∧ ctx.allocation.status = "Active" ∧
        ctx.project_needs_review = false ∧ ctx.expires_in ≤ 60 ∧
        review_formset_valid ctx.formset_choices = true) →
      (allocation_renew_post ctx).allocation.status = "Renewal Requested") := by
  constructor
  · intro hrefuse
    unfold allocation_renew_post
    by_cases h1 : ctx.renewal_enabled = false
    · simp [h1]
    · simp only [Bool.not_eq_false] at h1
      by_cases h2 : ctx.allocation.status = "Active"
      · by_cases h3 : ctx.project_needs_review
        · simp [h1, h2, h3]
        · by_cases h4 : ctx.expires_in > 60
          · simp [h1, h2, h3, h4]
          · exact absurd ⟨h1, h2, by simpa using h3, by omega⟩ hrefuse
      · simp [h1, h2]
  · rintro ⟨h1, h2, h3, h4, h5⟩
    unfold allocation_renew_post
    simp [h1, h2, h3, h5, show ¬ ctx.expires_in > 60 by omega]

/-- Witness for C5: a too-early renewal is refused unchanged, and an
in-window renewal with a valid review formset lands in Renewal Requested. -/
theorem c5_allocation_renew_spec_witness :
    ((allocation_renew_post renew_refused_fixture).allocation =
        renew_refused_fixture.allocation ∧
      (allocation_renew_post renew_refused_fixture).messages ≠ []) ∧
    (allocation_renew_post renew_ok_fixture).allocation.status = "Renewal Requested" :=
  ⟨(c5_allocation_renew_spec renew_refused_fixture).1 (by decide),
   (c5_allocation_renew_spec renew_ok_fixture).2 (by decide)⟩

/-- C6 counterexample: on a resource whose allocation_limit attribute is
set to 0, a project with no allocations at all has at least 0 counted
allocations, so the claim predicts the limit error, yet
`AllocationForm.clean` succeeds because Python treats the 0 limit as
falsy and skips the check. -/
theorem c6_zero_limit_counterexample :
    zero_limit_fixture.allocation_limit = some 0 ∧
    ((counted_allocations zero_limit_fixture.allocation_set zero_limit_fixture.resource : Int) ≥ 0) ∧
    allocation_form_clean zero_limit_fixture = .ok "New" :=
  ⟨rfl, by decide, rfl⟩

/-- C6 (amended): on a resource whose allocation_limit attribute is set to
a nonzero value, and for a submission that does not trip the
allocation-account check, `AllocationForm` validation fails with
"Your project is at the allocation limit allowed for this resource."
exactly when the project already has at least that many allocations to the
resource in the six counted statuses. -/
theorem c6_allocation_form_limit_iff (ctx : AllocationFormCtx) (l : Int)
    (hlimit : ctx.allocation_limit = some l) (hnz : l ≠ 0)
    (hacct : ¬ (ctx.account_enabled = true ∧ ctx.resource_in_account_mapping = true ∧
        ctx.account_attr_type_exists = true ∧ ctx.allocation_account = "")) :
    allocation_form_clean ctx =
        .error "Your project is at the allocation limit allowed for this resource." ↔
      (counted_allocations ctx.allocation_set ctx.resource : Int) ≥ l := by
  unfold allocation_form_clean
  rw [if_neg (by simpa using hacct)]
  simp only [hlimit, Option.getD_some]
  constructor
  · intro hres
    by_contra hge
    rw [if_neg] at hres
    · split at hres <;> simp_all
    · simp [hnz]
      omega
  · intro hge
    rw [if_pos]
    simp [hnz]
    omega

/-- Witness for C6 at a project already holding one Active allocation on a
limit-1 resource: validation fails with the limit error. -/
theorem c6_allocation_form_limit_iff_witness :
    allocation_form_clean at_limit_fixture =
      .error "Your project is at the allocation limit allowed for this resource." :=
  (c6_allocation_form_limit_iff at_limit_fixture 1 rfl (by decide) (by decide)).2 (by decide)

/-- C8: no removal path removes a project's PI. `remove_user_from_project`
applied to the PI returns False and changes no ProjectUser or
AllocationUser row, and the removal formset, given error-free forms with
the PI selected on one of them, raises "Cannot remove the project PI from
an allocation.". -/
theorem c8_pi_never_removed (project_obj : Project) (user_obj : String)
    (hpi : project_obj.pi = user_obj) :
    remove_user_from_project project_obj user_obj = (false, project_obj, []) ∧
    ∀ (eula_enabled : Bool) (forms : List UserFormRow),
      forms.any (·.has_errors) = false →
      (∃ r ∈ forms, r.selected = true ∧ r.allocation_project_pi = r.user) →
      (base_allocation_user_formset_clean eula_enabled .remove forms).1 =
        some "Cannot remove the project PI from an allocation." := by
  constructor
  · simp [remove_user_from_project, hpi]
  · intro eula_enabled forms hok hsel
    unfold base_allocation_user_formset_clean
    rw [if_neg (by simp [hok])]
    clear hok hpi
    induction forms with
    | nil => simp at hsel
    | cons r rest ih =>
        rcases hsel with ⟨x, hx, hxsel, hxpi⟩
        rcases List.mem_cons.mp hx with hhead | htail
        · subst hhead
          unfold formset_clean_rows
          rw [if_neg (by simp [hxsel])]
          simp [hxpi]
        · unfold formset_clean_rows
          by_cases hrsel : r.selected = false
          · simp only [hrsel, if_pos]
            simpa using ih ⟨x, htail, hxsel, hxpi⟩
          · rw [if_neg (by simpa using hrsel)]
            by_cases hrpi : r.allocation_project_pi = r.user
            · simp [hrpi]
            · simp only [hrpi, if_neg, if_false]
              simpa using ih ⟨x, htail, hxsel, hxpi⟩

/-- Witness for C8: the PI of the fixture project cannot be removed from
the project, and a removal formset selecting the PI raises the
ValidationError. -/
theorem c8_pi_never_removed_witness :
    remove_user_from_project pi_project_fixture "ada" =
        (false, pi_project_fixture, []) ∧
      (base_allocation_user_formset_clean false .remove [pi_row_fixture]).1 =
        some "Cannot remove the project PI from an allocation." :=
  ⟨(c8_pi_never_removed pi_project_fixture "ada" rfl).1,
   (c8_pi_never_removed pi_project_fixture "ada" rfl).2 false [pi_row_fixture]
     (by decide) ⟨pi_row_fixture, by decide, by decide, by decide⟩⟩

/-- C3 counterexample: a superuser approval of a non-Active allocation that
already has a start date, where the form submits a different start date;
the approval succeeds but the saved start date is the submitted one, not
the stored one, so the stored start date is not kept. -/
theorem c3_start_date_not_kept_counterexample :
    detail_approve_fixture.is_superuser = true ∧
    detail_approve_fixture.action = "approve" ∧
    detail_approve_fixture.allocation.status ≠ "Active" ∧
    (allocation_detail_post detail_approve_fixture).response = .redirect ∧
    (allocation_detail_post detail_approve_fixture).allocation.status = "Active" ∧
    (allocation_detail_post detail_approve_fixture).allocation.start_date ≠
      detail_approve_fixture.allocation.start_date := by
  decide

/-- C3 (amended): when a superuser posts approve or auto-approve on an
allocation that is not already Active and the resulting form validates,
the allocation becomes Active, its start date is the current time if it was
previously unset and otherwise the value submitted in the form, its end
date becomes now plus ALLOCATION_DEFAULT_ALLOCATION_LENGTH days, the
`allocation_activate` signal fires, and `allocation_activate_user` fires
for every allocation user whose status is not Removed, Error, DeclinedEULA
or PendingEULA. -/
theorem c3_detail_post_approve (ctx : DetailPostCtx)
    (hsu : ctx.is_superuser = true)
    (hact : ctx.action = "approve" ∨ ctx.action = "auto-approve")
    (hstat : ctx.allocation.status ≠ "Active")
    (hvalid : allocation_update_form_clean
        (if ctx.allocation.start_date = none then some ctx.now else ctx.form_data.start_date)
        (some (ctx.now + ctx.default_length)) = none) :
    (allocation_detail_post ctx).allocation.status = "Active" ∧
    (allocation_detail_post ctx).allocation.start_date =
      (if ctx.allocation.start_date = none then some ctx.now else ctx.form_data.start_date) ∧
    (allocation_detail_post ctx).allocation.end_date = some (ctx.now + ctx.default_length) ∧
    (allocation_detail_post ctx).signals = ["allocation_activate"] ∧
    ∀ au ∈ ctx.allocationuser_set,
      au.status ∉ (["Removed", "Error", "DeclinedEULA", "PendingEULA"] : List String) →
        ("allocation_activate_user", au.user) ∈ (allocation_detail_post ctx).user_signals := by
  have hdata : (detail_branch_plan ctx { ctx.form_data with status := "Active" }).data.status =
        "Active" ∧
      (detail_branch_plan ctx { ctx.form_data with status := "Active" }).data.start_date =
        (if ctx.allocation.start_date = none then some ctx.now else ctx.form_data.start_date) ∧
      (detail_branch_plan ctx { ctx.form_data with status := "Active" }).data.end_date =
        some (ctx.now + ctx.default_length) := by
    rcases hact with h | h <;>
      by_cases hsd : ctx.allocation.start_date = none <;>
        simp [detail_branch_plan, h, hsd]
  have hwire : (detail_branch_plan ctx { ctx.form_data with status := "Active" }).allocation_signal =
        some "allocation_activate" ∧
      (detail_branch_plan ctx { ctx.form_data with status := "Active" }).user_signal =
        some "allocation_activate_user" ∧
      (detail_branch_plan ctx { ctx.form_data with status := "Active" }).user_qs =
        ctx.allocationuser_set.filter
          (fun au => au.status ∉ ["Removed", "Error", "DeclinedEULA", "PendingEULA"]) := by
    simp [detail_branch_plan]
  have hres : allocation_detail_post ctx =
      { allocation :=
          apply_update_form (detail_branch_plan ctx { ctx.form_data with status := "Active" }).data
        messages := (detail_branch_plan ctx { ctx.form_data with status := "Active" }).msgs
        signals :=
          (detail_branch_plan ctx { ctx.form_data with status := "Active" }).allocation_signal.toList
        user_signals :=
          match (detail_branch_plan ctx { ctx.form_data with status := "Active" }).user_signal with
          | some s =>
              if (detail_branch_plan ctx { ctx.form_data with status := "Active" }).user_qs ≠ [] then
                (detail_branch_plan ctx { ctx.form_data with status := "Active" }).user_qs.map
                  (fun au => (s, au.user))
              else []
          | none => []
        emails :=
          (detail_branch_plan ctx { ctx.form_data with status := "Active" }).email_subject.toList
        response := .redirect } := by
    have hdirty : detail_dirty_data ctx.action ctx.form_data =
        { ctx.form_data with status := "Active" } := by
      rcases hact with h | h <;> simp [detail_dirty_data, h]
    unfold allocation_detail_post
    rw [if_neg (by simp [hsu]),
        if_neg (by rcases hact with h | h <;> simp [h]),
        hdirty,
        if_neg (by simpa using hstat)]
    have hclean : allocation_update_form_clean
        (detail_branch_plan ctx { ctx.form_data with status := "Active" }).data.start_date
        (detail_branch_plan ctx { ctx.form_data with status := "Active" }).data.end_date = none := by
      rw [hdata.2.1, hdata.2.2]; exact hvalid
    simp only [hclean]
  rw [hres]
  refine ⟨by simp [apply_update_form, hdata.1], by simp [apply_update_form, hdata.2.1],
    by simp [apply_update_form, hdata.2.2], by simp [hwire.1], ?_⟩
  intro au hau hst
  have hmem : au ∈ (detail_branch_plan ctx { ctx.form_data with status := "Active" }).user_qs := by
    rw [hwire.2.2]
    exact List.mem_filter.mpr ⟨hau, by simpa using hst⟩
  simp only [hwire.2.1]
  rw [if_pos (List.ne_nil_of_mem hmem)]
  exact List.mem_map.mpr ⟨au, hmem, rfl⟩

/-- Applying attribute-change forms in order keeps the attribute list's
length. -/
theorem length_foldl_set_attrs (fs : List AttrChangeForm) (attrs : List AllocationAttribute) :
    (fs.foldl (fun acc f => acc.set f.attr_ix { value := f.new_value }) attrs).length =
      attrs.length := by
  induction fs generalizing attrs with
  | nil => rfl
  | cons f rest ih =>
      rw [List.foldl_cons, ih]
      simp

/-- An attribute targeted by none of the forms keeps its value through the
fold. -/
theorem getElem_foldl_set_attrs_of_not_mem (fs : List AttrChangeForm)
    (attrs : List AllocationAttribute) (i : Nat)
    (hnone : ∀ f ∈ fs, f.attr_ix ≠ i) (hi : i < attrs.length)
    (h2 : i < (fs.foldl (fun acc f => acc.set f.attr_ix { value := f.new_value }) attrs).length) :
    (fs.foldl (fun acc f => acc.set f.attr_ix { value := f.new_value }) attrs).get ⟨i, h2⟩ =
      attrs.get ⟨i, hi⟩ := by
  induction fs generalizing attrs with
  | nil => rfl
  | cons f rest ih =>
      simp only [List.foldl_cons] at h2 ⊢
      rw [ih (attrs.set f.attr_ix { value := f.new_value })
        (fun g hg => hnone g (List.mem_cons_of_mem f hg)) (by simpa using hi) h2]
      simp [List.getElem_set, hnone f (List.mem_cons_self f rest)]

/-- When the forms target pairwise distinct attributes, the fold leaves
every targeted attribute holding its requested new value. -/
theorem getElem_foldl_set_attrs_of_nodup (fs : List AttrChangeForm)
    (attrs : List AllocationAttribute)
    (hnd : (fs.map (·.attr_ix)).Nodup) (f : AttrChangeForm) (hf : f ∈ fs)
    (hlt : f.attr_ix < attrs.length)
    (h2 : f.attr_ix <
      (fs.foldl (fun acc g => acc.set g.attr_ix { value := g.new_value }) attrs).length) :
    (fs.foldl (fun acc g => acc.set g.attr_ix { value := g.new_value }) attrs).get
        ⟨f.attr_ix, h2⟩ = { value := f.new_value } := by
  induction fs generalizing attrs with
  | nil => exact absurd hf (List.not_mem_nil f)
  | cons g rest ih =>
      simp only [List.foldl_cons] at h2 ⊢
      rcases List.mem_cons.mp hf with hhead | htail
      · subst hhead
        have hrest : ∀ g2 ∈ rest, g2.attr_ix ≠ f.attr_ix := by
          intro g2 hg2 hcontra
          have hmem := List.mem_map_of_mem (fun x => x.attr_ix) hg2
          simp only [hcontra] at hmem
          exact (List.nodup_cons.mp hnd).1 hmem
        rw [getElem_foldl_set_attrs_of_not_mem rest _ f.attr_ix hrest (by simpa using hlt) h2]
        simp [List.getElem_set]
      · exact ih _ (List.nodup_cons.mp hnd).2 htail (by simpa using hlt) h2

/-- C4 counterexample: a superuser approves a pending change request whose
only content is its stored five-day extension (the submitted extension
equals the stored one and there are no attribute change rows); both forms
validate, yet the view refuses with "You must make a change to the
allocation." and the request stays Pending with the allocation end date
untouched. -/
theorem c4_approve_refused_without_change_counterexample :
    change_approve_no_change_fixture.is_superuser = true ∧
    change_approve_no_change_fixture.action = "approve" ∧
    change_approve_no_change_fixture.change_request.status = "Pending" ∧
    change_approve_no_change_fixture.formset.all
      (attr_change_form_valid change_approve_no_change_fixture.attributes) = true ∧
    (allocation_change_detail_post change_approve_no_change_fixture).change_request.status =
      "Pending" ∧
    (allocation_change_detail_post change_approve_no_change_fixture).messages =
      ["You must make a change to the allocation."] ∧
    (allocation_change_detail_post change_approve_no_change_fixture).allocation_end_date =
      some 100 := by
  decide

/-- C4 (amended): when a superuser approves a pending AllocationChangeRequest,
its form and formset validate, and the submission actually requests a change
(the submitted end-date extension differs from the stored one or at least
one attribute change row is present), then: if the requested extension is
positive but the allocation has no end date, the view crashes with an
uncaught TypeError and the request stays "Pending"; otherwise the request's
status becomes "Approved", the allocation's end date is extended by exactly
the saved end_date_extension days whenever that is positive (and unchanged
when it is zero), and the attribute changes are applied in formset order,
each setting its allocation attribute's value to the requested new value. -/
theorem c4_change_approve (ctx : ChangePostCtx)
    (hsu : ctx.is_superuser = true)
    (hact : ctx.action = "approve")
    (hpend : ctx.change_request.status = "Pending")
    (hform : ctx.submitted_extension ∈ (0 :: ctx.ext_choices))
    (hfs : ctx.formset.all (attr_change_form_valid ctx.attributes) = true)
    (hchange : ctx.submitted_extension ≠ ctx.change_request.end_date_extension ∨
      ctx.formset ≠ []) :
    ((0 < ctx.submitted_extension ∧ ctx.allocation_end_date = none) →
      (allocation_change_detail_post ctx).response = .crashed ∧
      (allocation_change_detail_post ctx).change_request.status = "Pending" ∧
      (allocation_change_detail_post ctx).allocation_end_date = none ∧
      (allocation_change_detail_post ctx).attributes = ctx.attributes) ∧
    (¬ (0 < ctx.submitted_extension ∧ ctx.allocation_end_date = none) →
      (allocation_change_detail_post ctx).change_request.status = "Approved" ∧
      (allocation_change_detail_post ctx).change_request.end_date_extension =
        ctx.submitted_extension ∧
      (0 < ctx.submitted_extension →
        (allocation_change_detail_post ctx).allocation_end_date =
          ctx.allocation_end_date.map (· + ctx.submitted_extension)) ∧
      (ctx.submitted_extension = 0 →
        (allocation_change_detail_post ctx).allocation_end_date = ctx.allocation_end_date) ∧
      (allocation_change_detail_post ctx).attributes =
        ctx.formset.foldl (fun acc f => acc.set f.attr_ix { value := f.new_value })
          ctx.attributes ∧
      ((ctx.formset.map (·.attr_ix)).Nodup →
        ∀ f ∈ ctx.formset,
          ∀ h2 : f.attr_ix < (allocation_change_detail_post ctx).attributes.length,
            ((allocation_change_detail_post ctx).attributes.get ⟨f.attr_ix, h2⟩).value =
              f.new_value)) := by
  have henabled : ext_field_enabled ctx.change_request.status ctx.is_staff ctx.is_superuser =
      true := by
    simp [ext_field_enabled, hpend, hsu]
  have hsaved : apply_change_request_form ctx =
      { ctx.change_request with
          notes := ctx.submitted_notes
          end_date_extension := ctx.submitted_extension } := by
    simp [apply_change_request_form, henabled]
  have hres : allocation_change_detail_post ctx =
      if (apply_change_request_form ctx).end_date_extension > 0 ∧
          ctx.allocation_end_date = none then
        { change_request := apply_change_request_form ctx
          allocation_end_date := ctx.allocation_end_date
          attributes := ctx.attributes
          messages := [], signals := [], emails := [], response := .crashed }
      else
        { change_request := { apply_change_request_form ctx with status := "Approved" }
          allocation_end_date :=
            if (apply_change_request_form ctx).end_date_extension > 0 then
              ctx.allocation_end_date.map
                (· + (apply_change_request_form ctx).end_date_extension)
            else
              ctx.allocation_end_date
          attributes :=
            ctx.formset.foldl (fun acc f => acc.set f.attr_ix { value := f.new_value })
              ctx.attributes
          messages := ["Allocation change request has been APPROVED"]
          signals :=
            ctx.formset.map (fun _ => "allocation_attribute_changed") ++
              ["allocation_change_approved"]
          emails := ["Allocation Change Approved"]
          response := .redirect } := by
    unfold allocation_change_detail_post
    rw [if_neg (by simp [hsu]), if_neg (by simp [hact])]
    simp only [henabled, if_true, hact, hfs]
    rw [if_neg (by simp [hform])]
    rw [if_neg (by simp)]
    rw [if_neg (by simp)]
    rw [if_neg (by intro hc; rcases hchange with hc2 | hc2 <;> simp_all)]
    rw [if_neg (by simp [hpend])]
    rw [if_neg (by simp)]
  constructor
  · rintro ⟨hgt, hnone⟩
    rw [hres, if_pos (by rw [hsaved]; exact ⟨hgt, hnone⟩)]
    refine ⟨rfl, ?_, hnone ▸ rfl, rfl⟩
    simp [hsaved, hpend]
  · intro hnc
    rw [hres, if_neg (by rw [hsaved]; exact hnc)]
    refine ⟨by simp, by simp [hsaved], ?_, ?_, rfl, ?_⟩
    · intro hgt
      simp only [hsaved]
      rw [if_pos hgt]
    · intro hzero
      simp only [hsaved]
      rw [if_neg (by omega)]
    · intro hnd f hf h2
      have hlt : f.attr_ix < ctx.attributes.length := by
        have := List.all_eq_true.mp hfs f hf
        unfold attr_change_form_valid at this
        rcases hget : ctx.attributes.get? f.attr_ix with _ | attr
        · rw [hget] at this; simp at this
        · exact List.get?_eq_some.mp hget |>.1
      rw [getElem_foldl_set_attrs_of_nodup ctx.formset ctx.attributes hnd f hf hlt h2]

/-- Witness for C3: approving the fixture allocation activates it, keeps
the submitted start date, sets the default end date, and fires the activate
signals for the one non-excluded allocation user. -/
theorem c3_detail_post_approve_witness :
    (allocation_detail_post detail_approve_fixture).allocation.status = "Active" ∧
    (allocation_detail_post detail_approve_fixture).allocation.start_date =
      (if detail_approve_fixture.allocation.start_date = none then
        some detail_approve_fixture.now
      else detail_approve_fixture.form_data.start_date) ∧
    (allocation_detail_post detail_approve_fixture).allocation.end_date =
      some (detail_approve_fixture.now + detail_approve_fixture.default_length) ∧
    (allocation_detail_post detail_approve_fixture).signals = ["allocation_activate"] ∧
    ("allocation_activate_user", "alice") ∈
      (allocation_detail_post detail_approve_fixture).user_signals := by
  have h := c3_detail_post_approve detail_approve_fixture rfl (Or.inl rfl)
    (by decide) (by decide)
  exact ⟨h.1, h.2.1, h.2.2.1, h.2.2.2.1,
    h.2.2.2.2 { user := "alice", status := "Active" } (by decide) (by decide)⟩

/-- Witness for C4: approving the fixture change request marks it Approved,
extends the allocation end date by the 30 requested days, and rewrites the
targeted attribute to its requested value; on the NULL-end-date fixture the
same approval crashes and the request stays Pending. -/
theorem c4_change_approve_witness :
    ((allocation_change_detail_post change_approve_fixture).change_request.status =
        "Approved" ∧
      (allocation_change_detail_post change_approve_fixture).change_request.end_date_extension =
        30 ∧
      (allocation_change_detail_post change_approve_fixture).allocation_end_date = some 130 ∧
      (allocation_change_detail_post change_approve_fixture).attributes =
        [{ value := "2000" }, { value := "2" }]) ∧
    ((allocation_change_detail_post change_approve_null_end_fixture).response = .crashed ∧
      (allocation_change_detail_post change_approve_null_end_fixture).change_request.status =
        "Pending") := by
  have h := (c4_change_approve change_approve_fixture rfl rfl rfl (by decide) (by decide)
    (Or.inr (by decide))).2 (by decide)
  have hc := (c4_change_approve change_approve_null_end_fixture rfl rfl rfl (by decide)
    (by decide) (Or.inl (by decide))).1 (by decide)
  exact ⟨⟨h.1, h.2.1, (h.2.2.1 (by decide)).trans (by decide),
    h.2.2.2.2.1.trans (by decide)⟩, ⟨hc.1, hc.2.1⟩⟩

end Coldfront
